import Mathlib

/-!
Verification of the `InteractionPane` React component
(src/src/InteractionPane.js) against its natural-language specification.

The component maintains a 2D viewport transform `(scale, offset)` together
with ephemeral gesture-session snapshot fields, and updates it in response
to pointer, touch and wheel events.  We embed the six event handlers as
pure functions on an explicit state record, over the real numbers:

  * JS numbers are idealized as `ℝ`.  `Math.sqrt` becomes `Real.sqrt` and
    `Math.round` becomes the Mathlib `round` (both agree with the JS
    function on real values: `Math.round x = floor (x + 1/2)` and
    in Mathlib `round_eq : round x = ⌊x + 1 / 2⌋`).
  * Division in Lean is total with `x / 0 = 0`, whereas IEEE/JS division by
    zero yields `Infinity` (or `NaN` for `0 / 0`).  Wherever a theorem
    depends on a division by zero this divergence is called out in the
    accompanying doc comment; in every such place the JS value and the
    model value are on the same side of the property at issue.
  * The React `useState` hooks become fields of `PaneState`.  Three of
    them (`initialTouchCenter`, `initialOffset`, `dragPositionOffsetStart`)
    are initialized in JS to the empty object `{}`, whose numeric member
    reads give `NaN`; in concrete initial states below they carry the
    stand-in value `⟨0, 0⟩`, and no theorem about an initial state inspects
    a quantity whose JS value would be `NaN`.
  * `event.touches` becomes a `List Point`; the JS guard
    `event.touches.length >= 2` together with the accesses
    `event.touches[0]`, `event.touches[1]` becomes a match on
    `t0 :: t1 :: _`.
-/

noncomputable section

namespace InteractionPane

/-- A 2D point (screen coordinates of a contact point, or an offset). -/
structure Point where
  x : ℝ
  y : ℝ

/-- The full per-component state: the externally owned transform
(`scale`, `offset`, passed in as props) together with the seven `useState`
hook fields of `InteractionPane`, in source order. -/
structure PaneState where
  scale : ℝ
  offset : Point
  initialDistanceBetweenFingers : ℝ
  initialScale : ℝ
  initialTouchCenter : Point
  initialOffset : Point
  dragPositionStart : Point
  dragPositionOffsetStart : Point
  isDragging : Bool

/-- `SCROLLWHEEL_FACTOR` from the source: percentage of zoom per scroll
wheel event. -/
def SCROLLWHEEL_FACTOR : ℝ := 0.1

/-- `handlePointerDown`: records the drag start position and a snapshot of
the current offset, and sets `isDragging`.  (The `console.log` call has no
state effect.) -/
def handlePointerDown (s : PaneState) (clientX clientY : ℝ) : PaneState :=
  { s with
    dragPositionStart := ⟨clientX, clientY⟩
    dragPositionOffsetStart := s.offset
    isDragging := true }

/-- `handlePointerUp`: clears `isDragging`. -/
def handlePointerUp (s : PaneState) : PaneState :=
  { s with isDragging := false }

/-- `handlePointerMove`: while dragging, sets the offset to the rounded
sum of the drag-start offset snapshot and the pointer displacement since
drag start.  Otherwise does nothing. -/
def handlePointerMove (s : PaneState) (clientX clientY : ℝ) : PaneState :=
  if s.isDragging then
    let deltaX := clientX - s.dragPositionStart.x
    let deltaY := clientY - s.dragPositionStart.y
    { s with
      offset :=
        ⟨((round (s.dragPositionOffsetStart.x + deltaX) : ℤ) : ℝ),
         ((round (s.dragPositionOffsetStart.y + deltaY) : ℤ) : ℝ)⟩ }
  else s

/-- `handleTouchStart`: with at least two touches, snapshots the distance
between the first two touches, their midpoint, and the current scale and
offset.  With fewer than two touches it does nothing. -/
def handleTouchStart (s : PaneState) (touches : List Point) : PaneState :=
  match touches with
  | t0 :: t1 :: _ =>
    let distanceX := t1.x - t0.x
    let distanceY := t1.y - t0.y
    let initialDistance := Real.sqrt (distanceX * distanceX + distanceY * distanceY)
    let centerX := t0.x + (t1.x - t0.x) / 2
    let centerY := t0.y + (t1.y - t0.y) / 2
    { s with
      initialDistanceBetweenFingers := initialDistance
      initialTouchCenter := ⟨centerX, centerY⟩
      initialScale := s.scale
      initialOffset := s.offset }
  | _ => s

/-- `handleTouchMove`: with at least two touches, computes the new scale
from the ratio of the current finger distance to the session-start finger
distance, and the new offset as the session-start offset plus a
focal-point adjustment (keeping the session-start touch center fixed) plus
a pan adjustment (the movement of the finger midpoint since session
start).  With fewer than two touches it does nothing. -/
def handleTouchMove (s : PaneState) (touches : List Point) : PaneState :=
  match touches with
  | t0 :: t1 :: _ =>
    let distanceX := t1.x - t0.x
    let distanceY := t1.y - t0.y
    let currentDistanceBetweenFingers :=
      Real.sqrt (distanceX * distanceX + distanceY * distanceY)
    let scaleChange := currentDistanceBetweenFingers / s.initialDistanceBetweenFingers
    let newScale := s.initialScale * scaleChange
    let imageCoordinateX := (s.initialTouchCenter.x - s.initialOffset.x) / s.initialScale
    let imageCoordinateY := (s.initialTouchCenter.y - s.initialOffset.y) / s.initialScale
    let wouldBeNewScreenPositionX := imageCoordinateX * newScale + s.initialOffset.x
    let wouldBeNewScreenPositionY := imageCoordinateY * newScale + s.initialOffset.y
    let offsetAdjustmentX1 := s.initialTouchCenter.x - wouldBeNewScreenPositionX
    let offsetAdjustmentY1 := s.initialTouchCenter.y - wouldBeNewScreenPositionY
    let currentCenterX := t0.x + (t1.x - t0.x) / 2
    let currentCenterY := t0.y + (t1.y - t0.y) / 2
    let offsetAdjustmentX2 := currentCenterX - s.initialTouchCenter.x
    let offsetAdjustmentY2 := currentCenterY - s.initialTouchCenter.y
    { s with
      scale := newScale
      offset :=
        ⟨s.initialOffset.x + offsetAdjustmentX1 + offsetAdjustmentX2,
         s.initialOffset.y + offsetAdjustmentY1 + offsetAdjustmentY2⟩ }
  | _ => s

/-- `handleWheel`: steps the scale down by `SCROLLWHEEL_FACTOR` when
`deltaY > 0` and up by the same factor otherwise, then adjusts the offset
so that the content point under the cursor stays fixed.  (The
`console.log` calls have no state effect.) -/
def handleWheel (s : PaneState) (clientX clientY deltaY : ℝ) : PaneState :=
  let initialScale := s.scale
  let initialOffset := s.offset
  let newScale :=
    if deltaY > 0 then initialScale * (1 - SCROLLWHEEL_FACTOR)
    else initialScale * (1 + SCROLLWHEEL_FACTOR)
  let imageCoordinateX := (clientX - initialOffset.x) / initialScale
  let imageCoordinateY := (clientY - initialOffset.y) / initialScale
  let wouldBeNewScreenPositionX := imageCoordinateX * newScale + initialOffset.x
  let wouldBeNewScreenPositionY := imageCoordinateY * newScale + initialOffset.y
  let offsetAdjustmentX1 := clientX - wouldBeNewScreenPositionX
  let offsetAdjustmentY1 := clientY - wouldBeNewScreenPositionY
  { s with
    scale := newScale
    offset :=
      ⟨initialOffset.x + offsetAdjustmentX1,
       initialOffset.y + offsetAdjustmentY1⟩ }

/-- The component state at mount with the README/example initial props
`scale = 1`, `offset = {x: 0, y: 0}`: the hook fields carry their
`useState` initial values (`0`, `1`, `{x: 0, y: 0}`, `false`); the three
fields initialized in JS to `{}` carry the stand-in `⟨0, 0⟩` (no theorem
about this state reads a quantity whose JS value would be `NaN`). -/
def exampleState : PaneState where
  scale := 1
  offset := ⟨0, 0⟩
  initialDistanceBetweenFingers := 0
  initialScale := 1
  initialTouchCenter := ⟨0, 0⟩
  initialOffset := ⟨0, 0⟩
  dragPositionStart := ⟨0, 0⟩
  dragPositionOffsetStart := ⟨0, 0⟩
  isDragging := false

end InteractionPane

end

namespace InteractionPane

/-- Claim C1: focal invariance of zoom.  Wheel path: for every pre-state
with positive scale and every cursor point, the content point under the
cursor before the wheel step maps back to the cursor under the new
transform.  Pinch path: for every session state with positive start scale,
if the current finger midpoint equals the session start touch center `P`,
the content point under `P` at session start maps back to `P` under the
emitted transform. -/
theorem focal_invariance :
    (∀ (s : PaneState) (px py dy : ℝ), 0 < s.scale →
      ((px - s.offset.x) / s.scale) * (handleWheel s px py dy).scale
          + (handleWheel s px py dy).offset.x = px ∧
      ((py - s.offset.y) / s.scale) * (handleWheel s px py dy).scale
          + (handleWheel s px py dy).offset.y = py) ∧
    (∀ (s : PaneState) (c0 c1 : Point), 0 < s.initialScale →
      c0.x + (c1.x - c0.x) / 2 = s.initialTouchCenter.x →
      c0.y + (c1.y - c0.y) / 2 = s.initialTouchCenter.y →
      ((s.initialTouchCenter.x - s.initialOffset.x) / s.initialScale)
            * (handleTouchMove s [c0, c1]).scale
          + (handleTouchMove s [c0, c1]).offset.x = s.initialTouchCenter.x ∧
      ((s.initialTouchCenter.y - s.initialOffset.y) / s.initialScale)
            * (handleTouchMove s [c0, c1]).scale
          + (handleTouchMove s [c0, c1]).offset.y = s.initialTouchCenter.y) := by
  constructor
  · intro s px py dy _
    constructor <;> · simp only [handleWheel]; ring
  · intro s c0 c1 _ hx hy
    constructor
    · simp only [handleTouchMove]; linear_combination hx
    · simp only [handleTouchMove]; linear_combination hy

/-- Witness for C1: instantiates both paths at the example state (wheel at
cursor (100, 100) with positive wheel delta; pinch with both current
fingers at the origin, whose midpoint is the start touch center). -/
theorem focal_invariance_witness :
    (((100 : ℝ) - exampleState.offset.x) / exampleState.scale
          * (handleWheel exampleState 100 100 1).scale
        + (handleWheel exampleState 100 100 1).offset.x = 100 ∧
     ((100 : ℝ) - exampleState.offset.y) / exampleState.scale
          * (handleWheel exampleState 100 100 1).scale
        + (handleWheel exampleState 100 100 1).offset.y = 100) ∧
    ((exampleState.initialTouchCenter.x - exampleState.initialOffset.x) / exampleState.initialScale
          * (handleTouchMove exampleState [⟨0, 0⟩, ⟨0, 0⟩]).scale
        + (handleTouchMove exampleState [⟨0, 0⟩, ⟨0, 0⟩]).offset.x
        = exampleState.initialTouchCenter.x ∧
     (exampleState.initialTouchCenter.y - exampleState.initialOffset.y) / exampleState.initialScale
          * (handleTouchMove exampleState [⟨0, 0⟩, ⟨0, 0⟩]).scale
        + (handleTouchMove exampleState [⟨0, 0⟩, ⟨0, 0⟩]).offset.y
        = exampleState.initialTouchCenter.y) :=
  ⟨focal_invariance.1 exampleState 100 100 1 one_pos,
   focal_invariance.2 exampleState ⟨0, 0⟩ ⟨0, 0⟩ one_pos
     (by norm_num [exampleState]) (by norm_num [exampleState])⟩

/-- Claim C2 (failing input): no handler clamps the scale.  From the
example state, a pinch started at fingers (0, 0) and (3, 4) (start
distance 5, start scale 1) followed by a pinch move with both current
fingers at (7, 7) (current distance 0) sets the scale to exactly 0 — the
division `0 / 5` is exact, so the JS code computes 0 as well.  The claimed
clamp to a small positive epsilon does not exist in the code. -/
theorem pinch_collapse_scale_zero :
    (handleTouchMove (handleTouchStart exampleState [⟨0, 0⟩, ⟨3, 4⟩])
        [⟨7, 7⟩, ⟨7, 7⟩]).scale = 0 := by
  simp only [handleTouchStart, handleTouchMove, exampleState]
  norm_num

/-- Claim C3 (failing input): a pinch session started with both fingers
at (2, 2) is recorded with `initialDistanceBetweenFingers = 0` — nothing
defers or special-cases the degenerate start — and the following pinch
move divides by that 0.  In this embedding (total division, `x / 0 = 0`)
the resulting scale is 0; in JS the same expression is
`1 * (5 / 0) = Infinity`.  Either way the resulting scale is not a finite
positive number, refuting the claimed guard. -/
theorem degenerate_pinch_unguarded :
    (handleTouchStart exampleState [⟨2, 2⟩, ⟨2, 2⟩]).initialDistanceBetweenFingers = 0 ∧
    (handleTouchMove (handleTouchStart exampleState [⟨2, 2⟩, ⟨2, 2⟩])
        [⟨0, 0⟩, ⟨3, 4⟩]).scale = 0 := by
  constructor
  · simp only [handleTouchStart, exampleState]
    norm_num
  · simp only [handleTouchStart, handleTouchMove, exampleState]
    norm_num

/-- Claim C4 (counterexample): from the example state, a pointer-down at
(10, 10) starts a drag, and a subsequent two-finger touch-start at (0, 0)
and (3, 4) snapshots a pinch session while leaving `isDragging` set.  In
the resulting state both session kinds can mutate the transform: a pointer
move to (30, 25) changes the offset (the drag acts) and a touch move to
(0, 0), (6, 8) changes the scale (the pinch acts).  Starting one session
kind does not cancel or ignore the other. -/
theorem session_exclusivity_counterexample :
    (handleTouchStart (handlePointerDown exampleState 10 10) [⟨0, 0⟩, ⟨3, 4⟩]).isDragging
      = true ∧
    (handlePointerMove
        (handleTouchStart (handlePointerDown exampleState 10 10) [⟨0, 0⟩, ⟨3, 4⟩])
        30 25).offset.x
      ≠ (handleTouchStart (handlePointerDown exampleState 10 10) [⟨0, 0⟩, ⟨3, 4⟩]).offset.x ∧
    (handleTouchMove
        (handleTouchStart (handlePointerDown exampleState 10 10) [⟨0, 0⟩, ⟨3, 4⟩])
        [⟨0, 0⟩, ⟨6, 8⟩]).scale
      ≠ (handleTouchStart (handlePointerDown exampleState 10 10) [⟨0, 0⟩, ⟨3, 4⟩]).scale := by
  have h25 : Real.sqrt ((3 - 0) * (3 - 0) + (4 - 0) * (4 - 0)) = 5 := by
    rw [show ((3 - 0) * (3 - 0) + (4 - 0) * (4 - 0) : ℝ) = 5 ^ 2 by norm_num]
    exact Real.sqrt_sq (by norm_num)
  have h100 : Real.sqrt ((6 - 0) * (6 - 0) + (8 - 0) * (8 - 0)) = 10 := by
    rw [show ((6 - 0) * (6 - 0) + (8 - 0) * (8 - 0) : ℝ) = 10 ^ 2 by norm_num]
    exact Real.sqrt_sq (by norm_num)
  refine ⟨rfl, ?_, ?_⟩
  · simp only [handlePointerDown, handleTouchStart, handlePointerMove, exampleState]
    norm_num [round_eq]
  · simp only [handlePointerDown, handleTouchStart, handleTouchMove, exampleState]
    rw [h25, h100]
    norm_num

/-- Claim C4 (amended): the code does not arbitrate between session kinds.
A two-finger touch-start leaves the drag flag exactly as it was, and a
pointer-down leaves every pinch snapshot field exactly as it was, so
starting one session kind never cancels the other. -/
theorem session_no_arbitration (s : PaneState) (x y : ℝ) (ts : List Point) :
    (handleTouchStart s ts).isDragging = s.isDragging ∧
    (handlePointerDown s x y).initialDistanceBetweenFingers
      = s.initialDistanceBetweenFingers ∧
    (handlePointerDown s x y).initialScale = s.initialScale ∧
    (handlePointerDown s x y).initialTouchCenter = s.initialTouchCenter ∧
    (handlePointerDown s x y).initialOffset = s.initialOffset := by
  refine ⟨?_, rfl, rfl, rfl, rfl⟩
  rcases ts with _ | ⟨a, _ | ⟨b, r⟩⟩ <;> rfl

/-- Claim C5 (counterexample): a two-finger touch move that no touch-start
ever preceded is not ignored.  From the example state (mount state: no
session of any kind, `initialDistanceBetweenFingers` still 0), a touch
move with fingers at (0, 0) and (3, 4) changes the scale: the handler is
guarded only by the touch count, not by any session flag.  In this
embedding the new scale is `1 * (5 / 0) = 0`; in JS it is `Infinity`;
either way the transform does not stay unchanged. -/
theorem stray_touch_move_mutates :
    (handleTouchMove exampleState [⟨0, 0⟩, ⟨3, 4⟩]).scale ≠ exampleState.scale := by
  simp only [handleTouchMove, exampleState]
  norm_num

/-- Claim C5 (amended): a pointer move with no active drag session is a
complete no-op, and a touch move with fewer than two contact points is a
complete no-op; a move with two or more contact points is not guarded by
any session state (see the counterexample). -/
theorem stray_move_amended :
    (∀ (s : PaneState) (ex ey : ℝ), s.isDragging = false →
        handlePointerMove s ex ey = s) ∧
    (∀ (s : PaneState) (ts : List Point), ts.length < 2 →
        handleTouchMove s ts = s) := by
  constructor
  · intro s ex ey h
    simp [handlePointerMove, h]
  · intro s ts h
    rcases ts with _ | ⟨a, _ | ⟨b, r⟩⟩
    · rfl
    · rfl
    · simp at h
      omega

/-- Witness for the amended C5: at the example state, a stray pointer move
and a one-finger touch move both leave the state untouched. -/
theorem stray_move_witness :
    handlePointerMove exampleState 5 6 = exampleState ∧
    handleTouchMove exampleState [⟨1, 1⟩] = exampleState :=
  ⟨stray_move_amended.1 exampleState 5 6 rfl,
   stray_move_amended.2 exampleState [⟨1, 1⟩] (by decide)⟩

/-- Claim C6: pinch pan/zoom decomposition.  For a pinch session started
at fingers `t0`, `t1` with positive start scale and positive start finger
distance, a pinch move in which both fingers are translated by the same
vector `v` (so the finger distance is unchanged) emits the start scale
unchanged and the start offset translated by exactly `v`. -/
theorem pinch_pan_zoom_decomposition (s : PaneState) (t0 t1 v : Point)
    (h1 : 0 < (handleTouchStart s [t0, t1]).initialScale)
    (h2 : 0 < (handleTouchStart s [t0, t1]).initialDistanceBetweenFingers) :
    (handleTouchMove (handleTouchStart s [t0, t1])
        [⟨t0.x + v.x, t0.y + v.y⟩, ⟨t1.x + v.x, t1.y + v.y⟩]).scale
      = (handleTouchStart s [t0, t1]).initialScale ∧
    (handleTouchMove (handleTouchStart s [t0, t1])
        [⟨t0.x + v.x, t0.y + v.y⟩, ⟨t1.x + v.x, t1.y + v.y⟩]).offset.x
      = (handleTouchStart s [t0, t1]).initialOffset.x + v.x ∧
    (handleTouchMove (handleTouchStart s [t0, t1])
        [⟨t0.x + v.x, t0.y + v.y⟩, ⟨t1.x + v.x, t1.y + v.y⟩]).offset.y
      = (handleTouchStart s [t0, t1]).initialOffset.y + v.y := by
  have hs : s.scale ≠ 0 := by
    have := h1
    simp only [handleTouchStart] at this
    exact ne_of_gt this
  have hD : 0 < Real.sqrt
      ((t1.x - t0.x) * (t1.x - t0.x) + (t1.y - t0.y) * (t1.y - t0.y)) := by
    have := h2
    simp only [handleTouchStart] at this
    exact this
  have hd : Real.sqrt
        ((t1.x + v.x - (t0.x + v.x)) * (t1.x + v.x - (t0.x + v.x)) +
          (t1.y + v.y - (t0.y + v.y)) * (t1.y + v.y - (t0.y + v.y)))
      = Real.sqrt ((t1.x - t0.x) * (t1.x - t0.x) + (t1.y - t0.y) * (t1.y - t0.y)) := by
    congr 1
    ring
  refine ⟨?_, ?_, ?_⟩ <;>
  · simp only [handleTouchStart, handleTouchMove]
    rw [hd, div_self (ne_of_gt hD)]
    field_simp
    try ring

/-- Witness for C6: a pinch started at (0, 0) and (3, 4) (distance 5,
scale 1) whose fingers then both translate by (1, 2). -/
theorem pinch_pan_zoom_decomposition_witness :
    (handleTouchMove (handleTouchStart exampleState [⟨0, 0⟩, ⟨3, 4⟩])
        [⟨0 + 1, 0 + 2⟩, ⟨3 + 1, 4 + 2⟩]).scale
      = (handleTouchStart exampleState [⟨0, 0⟩, ⟨3, 4⟩]).initialScale ∧
    (handleTouchMove (handleTouchStart exampleState [⟨0, 0⟩, ⟨3, 4⟩])
        [⟨0 + 1, 0 + 2⟩, ⟨3 + 1, 4 + 2⟩]).offset.x
      = (handleTouchStart exampleState [⟨0, 0⟩, ⟨3, 4⟩]).initialOffset.x + 1 ∧
    (handleTouchMove (handleTouchStart exampleState [⟨0, 0⟩, ⟨3, 4⟩])
        [⟨0 + 1, 0 + 2⟩, ⟨3 + 1, 4 + 2⟩]).offset.y
      = (handleTouchStart exampleState [⟨0, 0⟩, ⟨3, 4⟩]).initialOffset.y + 2 :=
  pinch_pan_zoom_decomposition exampleState ⟨0, 0⟩ ⟨3, 4⟩ ⟨1, 2⟩
    one_pos
    (by simp only [handleTouchStart]
        exact Real.sqrt_pos.mpr (by norm_num))

/-- Claim C7: drag linearity.  While a drag session is active, a pointer
move to `(ex, ey)` sets each offset component to the rounded sum of the
session-start offset snapshot and the pointer displacement since session
start, and leaves the scale unchanged. -/
theorem drag_linearity (s : PaneState) (ex ey : ℝ) (h : s.isDragging = true) :
    (handlePointerMove s ex ey).offset.x
      = ((round (s.dragPositionOffsetStart.x + (ex - s.dragPositionStart.x)) : ℤ) : ℝ) ∧
    (handlePointerMove s ex ey).offset.y
      = ((round (s.dragPositionOffsetStart.y + (ey - s.dragPositionStart.y)) : ℤ) : ℝ) ∧
    (handlePointerMove s ex ey).scale = s.scale := by
  simp [handlePointerMove, h]

/-- Witness for C7: the spec example drag from (50, 50) to (80, 65)
starting at offset (0, 0). -/
theorem drag_linearity_witness :
    (handlePointerMove (handlePointerDown exampleState 50 50) 80 65).offset.x
      = ((round ((handlePointerDown exampleState 50 50).dragPositionOffsetStart.x
          + (80 - (handlePointerDown exampleState 50 50).dragPositionStart.x)) : ℤ) : ℝ) ∧
    (handlePointerMove (handlePointerDown exampleState 50 50) 80 65).offset.y
      = ((round ((handlePointerDown exampleState 50 50).dragPositionOffsetStart.y
          + (65 - (handlePointerDown exampleState 50 50).dragPositionStart.y)) : ℤ) : ℝ) ∧
    (handlePointerMove (handlePointerDown exampleState 50 50) 80 65).scale
      = (handlePointerDown exampleState 50 50).scale :=
  drag_linearity (handlePointerDown exampleState 50 50) 80 65 rfl

/-- Claim C8: wheel step size.  Every wheel event multiplies the scale by
`1 - SCROLLWHEEL_FACTOR` when `deltaY > 0` and by `1 + SCROLLWHEEL_FACTOR`
otherwise, with `SCROLLWHEEL_FACTOR = 0.1`; in particular, from scale 1
and offset (0, 0), a wheel event at (100, 100) with `deltaY = 1` yields
scale 0.9 and offset (10, 10). -/
theorem wheel_step_size :
    (∀ (s : PaneState) (cx cy dy : ℝ),
      (handleWheel s cx cy dy).scale =
        if dy > 0 then s.scale * (1 - SCROLLWHEEL_FACTOR)
        else s.scale * (1 + SCROLLWHEEL_FACTOR)) ∧
    SCROLLWHEEL_FACTOR = 0.1 ∧
    (handleWheel exampleState 100 100 1).scale = 0.9 ∧
    (handleWheel exampleState 100 100 1).offset.x = 10 ∧
    (handleWheel exampleState 100 100 1).offset.y = 10 := by
  refine ⟨fun s cx cy dy => rfl, rfl, ?_, ?_, ?_⟩ <;>
    norm_num [handleWheel, exampleState, SCROLLWHEEL_FACTOR]

/-- Any wheel event preserves positivity of the scale: both step factors
(0.9 and 1.1) are positive. -/
theorem handleWheel_scale_pos (s : PaneState) (cx cy dy : ℝ) (h : 0 < s.scale) :
    0 < (handleWheel s cx cy dy).scale := by
  simp only [handleWheel, SCROLLWHEEL_FACTOR]
  split <;> nlinarith

/-- Witness for `handleWheel_scale_pos` at the example state. -/
theorem handleWheel_scale_pos_witness :
    0 < (handleWheel exampleState 0 0 1).scale :=
  handleWheel_scale_pos exampleState 0 0 1 one_pos

/-- Claim C9: scale monotonicity under wheel.  From positive scale, a
wheel event with `deltaY > 0` strictly decreases the scale, one with
`deltaY ≤ 0` strictly increases it, and no sequence of wheel events (each
a cursor position and a delta) ever brings the scale to a value ≤ 0. -/
theorem wheel_scale_monotonicity :
    (∀ (s : PaneState) (cx cy dy : ℝ), 0 < s.scale → 0 < dy →
      (handleWheel s cx cy dy).scale < s.scale) ∧
    (∀ (s : PaneState) (cx cy dy : ℝ), 0 < s.scale → dy ≤ 0 →
      s.scale < (handleWheel s cx cy dy).scale) ∧
    (∀ (s : PaneState) (events : List (ℝ × ℝ × ℝ)), 0 < s.scale →
      0 < (events.foldl (fun t e => handleWheel t e.1 e.2.1 e.2.2) s).scale) := by
  refine ⟨?_, ?_, ?_⟩
  · intro s cx cy dy hs hdy
    simp only [handleWheel, SCROLLWHEEL_FACTOR, if_pos hdy]
    nlinarith
  · intro s cx cy dy hs hdy
    have hnot : ¬ dy > 0 := not_lt.mpr hdy
    simp only [handleWheel, SCROLLWHEEL_FACTOR, if_neg hnot]
    nlinarith
  · intro s events
    induction events generalizing s with
    | nil => intro hs; simpa using hs
    | cons e rest ih =>
        intro hs
        rw [List.foldl_cons]
        exact ih _ (handleWheel_scale_pos _ _ _ _ hs)

/-- Witness for C9: from the example state (scale 1), one wheel-down
step decreases the scale, one wheel-up step increases it, and a
three-event wheel sequence keeps the scale positive. -/
theorem wheel_scale_monotonicity_witness :
    (handleWheel exampleState 0 0 1).scale < exampleState.scale ∧
    exampleState.scale < (handleWheel exampleState 0 0 0).scale ∧
    0 < (([(1, 2, 3), (4, 5, -6), (7, 8, 0)] : List (ℝ × ℝ × ℝ)).foldl
        (fun t e => handleWheel t e.1 e.2.1 e.2.2) exampleState).scale :=
  ⟨wheel_scale_monotonicity.1 exampleState 0 0 1 one_pos one_pos,
   wheel_scale_monotonicity.2.1 exampleState 0 0 0 one_pos le_rfl,
   wheel_scale_monotonicity.2.2 exampleState [(1, 2, 3), (4, 5, -6), (7, 8, 0)] one_pos⟩

/-- Claim C10: a touch-start with fewer than two contact points is a
complete no-op: the whole state — transform, pinch snapshot fields and
drag session fields — is unchanged. -/
theorem single_touch_start_noop (s : PaneState) (ts : List Point)
    (h : ts.length < 2) :
    handleTouchStart s ts = s := by
  rcases ts with _ | ⟨a, _ | ⟨b, r⟩⟩
  · rfl
  · rfl
  · simp at h
    omega

/-- Witness for C10: a one-finger touch-start at the example state. -/
theorem single_touch_start_noop_witness :
    handleTouchStart exampleState [⟨9, 9⟩] = exampleState :=
  single_touch_start_noop exampleState [⟨9, 9⟩] (by decide)

end InteractionPane
